import Mathlib

/-!
Shallow embedding of the measurement/report pipeline of `app.py`
(Ruvello measurement sheet). Pasted numeric text is modelled as Lean
strings, Python floats as rationals (ℚ), `round(x, 3)` / numpy
`.round(3)` as round-half-to-even on thousandths over ℚ, and the
Streamlit session state as an explicit record passed through the
handlers. ReportLab `Paragraph` cells are modelled by their visible
text (markup tags such as bold are rendering directives, not cell
content).
-/

namespace Measurement

/-! ### Allowance parser (`parse_allowance`, app.py lines 53-63) -/

/-- Numeric value of a decimal digit character. -/
def digitVal (c : Char) : Nat := c.toNat - 48

/-- Accumulator pass behind `re_findall_digits`: walks the character list
left to right, `cur` holds the value of the digit run in progress (if any)
and `acc` the runs already completed, in reverse order. -/
def findallDigitsAux : List Char → Option Nat → List Nat → List Nat
  | [], cur, acc =>
    (match cur with
     | some n => n :: acc
     | none => acc).reverse
  | c :: cs, cur, acc =>
    if c.isDigit then
      findallDigitsAux cs (some ((cur.getD 0) * 10 + digitVal c)) acc
    else
      match cur with
      | some n => findallDigitsAux cs none (n :: acc)
      | none => findallDigitsAux cs none acc

/-- Embedding of Python `re.findall(r'\d+', s)` followed by `int(...)`:
the values of the maximal digit runs of `s`, left to right. Sign
characters are ordinary non-digit separators. -/
def re_findall_digits (s : String) : List Nat :=
  findallDigitsAux s.data none []

/-- Embedding of `parse_allowance(allow_str, swap)` (app.py lines 53-61):
`val1` is the first extracted integer (0 if none), `val2` the second
(`val1` if missing); returns `(val1, val2)` when `swap` and
`(val2, val1)` otherwise. -/
def parse_allowance (allow_str : String) (swap : Bool) : Nat × Nat :=
  let nums := re_findall_digits allow_str
  let val1 := nums.headD 0
  let val2 := (nums.get? 1).getD val1
  if swap then (val1, val2) else (val2, val1)

/-- Deduction pair as an explicit rule record. -/
structure AllowanceRule where
  lengthDeduction : Nat
  heightDeduction : Nat
deriving DecidableEq, Repr

/-- Embedding of the call site `deduct_h, deduct_l = parse_allowance(...)`
(app.py line 63): the first component of the returned pair is the height
deduction, the second the length deduction. -/
def appDeductions (allowance_str : String) (swap_allowance : Bool) : AllowanceRule :=
  let p := parse_allowance allowance_str swap_allowance
  { heightDeduction := p.1, lengthDeduction := p.2 }

/-- First integer extracted from the allowance string, 0 if none
(the spec's `a`). -/
def firstFound (s : String) : Nat := (re_findall_digits s).headD 0

/-- Second integer extracted from the allowance string, equal to the
first when absent (the spec's `b`). -/
def secondFound (s : String) : Nat :=
  ((re_findall_digits s).get? 1).getD (firstFound s)

/-! ### Rounding (numpy `.round(3)`, app.py lines 97-98) -/

/-- Round a rational to the nearest integer, ties to even (the rounding
used by Python `round` and numpy `.round`). -/
def roundHalfEven (q : ℚ) : ℤ :=
  let f := ⌊q⌋
  let r := q - (f : ℚ)
  if r < 1/2 then f
  else if 1/2 < r then f + 1
  else if 2 ∣ f then f else f + 1

/-- Round to 3 decimal places (numpy `.round(3)` in the rational model). -/
def round3 (q : ℚ) : ℚ := (roundHalfEven (q * 1000) : ℚ) / 1000

/-! ### Slab records (Process and Calculate handler, app.py lines 76-103) -/

/-- One row of the working DataFrame `df_new`: gross dimensions, net
dimensions after deduction, and the two rounded areas. -/
structure SlabRecord where
  id : String
  grossLength : ℚ
  grossHeight : ℚ
  netLength : ℚ
  netHeight : ℚ
  grossArea : ℚ
  netArea : ℚ
deriving DecidableEq, Repr

/-- Build one record at 0-based position `i` (app.py lines 86-98):
`Slab No` is `RG-<i+1>`, net dimensions subtract the deductions, and
both areas are `round3` of (product / 10000). -/
def mkSlabRecord (deduct_l deduct_h : ℚ) (i : Nat) (gl gh : ℚ) : SlabRecord :=
  let nl := gl - deduct_l
  let nh := gh - deduct_h
  { id := "RG-" ++ toString (i + 1)
    grossLength := gl
    grossHeight := gh
    netLength := nl
    netHeight := nh
    grossArea := round3 (gl * gh / 10000)
    netArea := round3 (nl * nh / 10000) }

/-- Column-wise DataFrame construction, indexed from `start`: one record
per parallel pair of gross length and height. -/
def buildRecordsFrom (deduct_l deduct_h : ℚ) : Nat → List ℚ → List ℚ → List SlabRecord
  | _, [], _ => []
  | _, _ :: _, [] => []
  | i, gl :: ls, gh :: hs =>
    mkSlabRecord deduct_l deduct_h i gl gh :: buildRecordsFrom deduct_l deduct_h (i + 1) ls hs

/-- Records built from the two parsed columns (app.py lines 85-98). -/
def buildRecords (deduct_l deduct_h : ℚ) (ls hs : List ℚ) : List SlabRecord :=
  buildRecordsFrom deduct_l deduct_h 0 ls hs

/-! ### Parsing the pasted text -/

/-- Natural number denoted by a digit string, most significant first. -/
def digitsToNat (l : List Char) : Nat :=
  l.foldl (fun acc c => acc * 10 + digitVal c) 0

/-- Unsigned part of a Python float literal: digits, optionally followed
by a point and more digits; at least one digit overall. -/
def parseUnsigned (l : List Char) : Option ℚ :=
  let intPart := l.takeWhile Char.isDigit
  let rest := l.dropWhile Char.isDigit
  match rest with
  | [] => if intPart = [] then none else some (digitsToNat intPart : ℚ)
  | '.' :: frac =>
    if frac.all Char.isDigit ∧ (intPart ≠ [] ∨ frac ≠ []) then
      some ((digitsToNat intPart : ℚ) + (digitsToNat frac : ℚ) / (10 ^ frac.length))
    else none
  | _ => none

/-- Modelled from the spec: the Python builtin `float(...)` used at
app.py lines 79-80 is not part of this repository; it is modelled here
on optionally signed decimal literals (the numeric paste content the
spec contemplates), returning `none` exactly where `float` raises
`ValueError`. -/
def parseFloat (l : List Char) : Option ℚ :=
  match l with
  | '-' :: rest => (parseUnsigned rest).map Neg.neg
  | '+' :: rest => parseUnsigned rest
  | _ => parseUnsigned l

/-- Split a character list at newline characters, keeping empty pieces
(Python `split('\n')`). -/
def splitNl : List Char → List (List Char)
  | [] => [[]]
  | c :: cs =>
    if c = '\n' then [] :: splitNl cs
    else
      match splitNl cs with
      | [] => [[c]]
      | l :: ls => (c :: l) :: ls

/-- Python `strip()`: drop whitespace from both ends. -/
def stripChars (l : List Char) : List Char :=
  ((l.dropWhile Char.isWhitespace).reverse.dropWhile Char.isWhitespace).reverse

/-- Lines of the paste after `split('\n')`, `strip()` and dropping
blank lines (the comprehension filter at app.py lines 79-80). -/
def trimmedLines (s : String) : List (List Char) :=
  ((splitNl s.data).map stripChars).filter (fun x => x ≠ [])

/-- Parse every line, failing as a whole if any line fails (the
comprehension raising `ValueError`). -/
def parseAll : List (List Char) → Option (List ℚ)
  | [] => some []
  | x :: xs =>
    match parseFloat x, parseAll xs with
    | some v, some vs => some (v :: vs)
    | _, _ => none

/-- The parsed numeric column of one text area: `none` when a non-blank
line is not numeric. -/
def parseLines (s : String) : Option (List ℚ) := parseAll (trimmedLines s)

/-! ### The Process and Calculate handler -/

/-- User-visible messages emitted by the two handlers. -/
inductive UiMessage where
  | mismatchError (nL nH : Nat)
  | numericFormatError
  | calculated (n : Nat)
  | generated (n : Nat)
deriving DecidableEq, Repr

/-- Session state: `st.session_state.smart_data` when present. -/
structure AppState where
  smart_data : Option (List SlabRecord)
deriving DecidableEq, Repr

/-- Embedding of the Process and Calculate click handler (app.py lines
76-103): a falsy (empty) text area makes the whole handler a no-op; a
non-numeric line yields the numeric-format error; unequal column counts
yield the mismatch error; otherwise the working set is replaced by the
freshly built records and a success message is shown. The state is
returned unchanged on every error path. -/
def processCalculate (deduct_l deduct_h : ℚ) (raw_L raw_H : String) (st : AppState) :
    AppState × Option UiMessage :=
  if raw_L = "" ∨ raw_H = "" then (st, none)
  else
    match parseLines raw_L, parseLines raw_H with
    | some list_L, some list_H =>
      if list_L.length ≠ list_H.length then
        (st, some (UiMessage.mismatchError list_L.length list_H.length))
      else
        let recs := buildRecords deduct_l deduct_h list_L list_H
        (⟨some recs⟩, some (UiMessage.calculated recs.length))
    | _, _ => (st, some UiMessage.numericFormatError)

/-! ### Aggregation (app.py lines 106-126) -/

/-- Report-level totals. -/
structure ReportTotals where
  slabCount : Nat
  totalGrossArea : ℚ
  totalNetArea : ℚ
deriving DecidableEq, Repr

/-- Totals over the working records (app.py lines 110-112): count and
plain sums of the already-rounded per-slab areas. -/
def computeTotals (recs : List SlabRecord) : ReportTotals :=
  { slabCount := recs.length
    totalGrossArea := (recs.map SlabRecord.grossArea).sum
    totalNetArea := (recs.map SlabRecord.netArea).sum }

/-- The display section (app.py lines 106-126): the current records and
their totals when `smart_data` exists, otherwise an empty frame with
zero totals. -/
def displaySection (st : AppState) : List SlabRecord × ReportTotals :=
  match st.smart_data with
  | some final_df => (final_df, computeTotals final_df)
  | none => ([], ⟨0, 0, 0⟩)

/-! ### PDF table (generate_smart_pdf, app.py lines 236-259) -/

/-- Three-digit zero padding for the fractional part. -/
def pad3 (k : Nat) : String :=
  if k < 10 then "00" ++ toString k
  else if k < 100 then "0" ++ toString k
  else toString k

/-- Visible text of the Python format `f"{q:.3f}"` in the rational
model: round-half-even at the third decimal, always three decimals. -/
def fmt3 (q : ℚ) : String :=
  let n := roundHalfEven (q * 1000)
  let sign := if n < 0 then "-" else ""
  sign ++ toString (n.natAbs / 1000) ++ "." ++ pad3 (n.natAbs % 1000)

/-- Visible text of the Python format `f"{q:.0f}"` in the rational
model: the rounded whole number. -/
def fmt0 (q : ℚ) : String := toString (roundHalfEven q)

/-- Visible cell texts of one data row of the measurement table
(app.py lines 237-249): position number, slab id, gross L/H/area,
net L/H/area; lengths whole, areas at three decimals. -/
def dataRow (i : Nat) (r : SlabRecord) : List String :=
  [toString (i + 1), r.id,
   fmt0 r.grossLength, fmt0 r.grossHeight, fmt3 r.grossArea,
   fmt0 r.netLength, fmt0 r.netHeight, fmt3 r.netArea]

/-- The totals row (app.py lines 251-255): blank, the literal TOTAL
label under the slab-id column, blanks, total gross area under the
gross-area column, blanks, total net area under the net-area column. -/
def totalRow (t_gross t_net : ℚ) : List String :=
  ["", "TOTAL", "", "", fmt3 t_gross, "", "", fmt3 t_net]

/-- Data rows of the table, position-numbered from `start`
(the `for i, row in data.iterrows()` loop). -/
def dataRowsFrom : Nat → List SlabRecord → List (List String)
  | _, [] => []
  | i, r :: rs => dataRow i r :: dataRowsFrom (i + 1) rs

/-- Body of the measurement table below the two header rows: one data
row per record in order, then the single totals row (app.py lines
236-256). -/
def tableRows (data : List SlabRecord) (t_gross t_net : ℚ) : List (List String) :=
  dataRowsFrom 0 data ++ [totalRow t_gross t_net]

/-! ### Generate Luxury Report handler (app.py lines 314-321) -/

/-- Download file name of the report (app.py line 321): built from the
material name alone; the invoice number is in scope but does not occur
in the f-string. -/
def downloadFileName (material_name invoice_no : String) : String :=
  "Report_" ++ material_name ++ ".pdf"

/-- Structural content of the produced document relevant to the claims:
the table body and the download file name. -/
structure Document where
  body : List (List String)
  fileName : String
deriving DecidableEq, Repr

/-- Embedding of the Generate Luxury Report click handler (app.py lines
314-321): when the current record count is positive, build the document
from the working records and their totals and show the success message;
otherwise do nothing at all (no document, no message). -/
def generateReport (material invoice : String) (st : AppState) :
    Option Document × Option UiMessage :=
  let s := displaySection st
  if (s.2).slabCount > 0 then
    (some { body := tableRows s.1 (s.2).totalGrossArea (s.2).totalNetArea
            fileName := downloadFileName material invoice },
     some (UiMessage.generated (s.2).slabCount))
  else (none, none)

/-! ### Helper lemmas -/

section Proofs

attribute [local semireducible] Rat.mul Rat.inv Rat.add Rat.sub

/-- Successful parsing keeps the line count. -/
theorem parseAll_length : ∀ (l : List (List Char)) (vs : List ℚ),
    parseAll l = some vs → vs.length = l.length := by
  intro l
  induction l with
  | nil =>
    intro vs h
    simp only [parseAll, Option.some.injEq] at h
    subst h
    rfl
  | cons x xs ih =>
    intro vs h
    simp only [parseAll] at h
    split at h
    · rename_i v ws hx hxs
      simp only [Option.some.injEq] at h
      subst h
      simp [ih ws hxs]
    · exact absurd h (by simp)

/-- The data-row block has one row per record. -/
theorem dataRowsFrom_length : ∀ (recs : List SlabRecord) (k : Nat),
    (dataRowsFrom k recs).length = recs.length := by
  intro recs
  induction recs with
  | nil => intro k; rfl
  | cons r rs ih => intro k; simp [dataRowsFrom, ih]

/-- Row `j` of the data-row block renders record `j`, position-numbered
from `k`. -/
theorem dataRowsFrom_get? : ∀ (recs : List SlabRecord) (k j : Nat) (h : j < recs.length),
    (dataRowsFrom k recs).get? j = some (dataRow (k + j) (recs.get ⟨j, h⟩)) := by
  intro recs
  induction recs with
  | nil => intro k j h; exact absurd h (by simp)
  | cons r rs ih =>
    intro k j h
    cases j with
    | zero => simp [dataRowsFrom]
    | succ n =>
      have hn : n < rs.length := by simpa using h
      simp only [dataRowsFrom, List.get?_cons_succ]
      rw [ih (k + 1) n hn]
      have harith : k + 1 + n = k + (n + 1) := by omega
      simp [harith]

/-! ### Claim theorems -/

/-- C1: for every allowance string and swap flag, with `a` the first
integer extracted (0 if none) and `b` the second (equal to `a` if
missing), the deduction rule is `(lengthDeduction = a, heightDeduction
= b)` without swap and `(lengthDeduction = b, heightDeduction = a)`
with swap; extraction ignores a leading sign character. Purity,
determinism and totality hold because `appDeductions` is a total Lean
function. -/
theorem C1_allowance_rule (s : String) (swap : Bool) :
    (appDeductions s swap
      = if swap then { lengthDeduction := secondFound s, heightDeduction := firstFound s }
        else { lengthDeduction := firstFound s, heightDeduction := secondFound s }) ∧
    re_findall_digits ("-" ++ s) = re_findall_digits s := by
  constructor
  · cases swap <;>
      simp [appDeductions, parse_allowance, firstFound, secondFound]
  · have hdata : ("-" ++ s).data = '-' :: s.data := by
      simp [String.data_append]
    simp [re_findall_digits, hdata, findallDigitsAux]

/-- C10: an empty pasted text area makes the Process and Calculate
click a silent no-op: unchanged state, no message, no records built. -/
theorem C10_empty_paste_noop (dl dh : ℚ) (raw_L raw_H : String) (st : AppState)
    (h : raw_L = "" ∨ raw_H = "") :
    processCalculate dl dh raw_L raw_H st = (st, none) := by
  unfold processCalculate
  rw [if_pos h]

/-- C10 witness: empty gross-length paste with a non-empty height
paste leaves the state untouched and reports nothing. -/
theorem C10_empty_paste_noop_witness :
    (("" : String) = "" ∨ ("287\n203" : String) = "") ∧
    processCalculate 0 0 "" "287\n203" ⟨none⟩ = (⟨none⟩, none) :=
  ⟨Or.inl rfl, C10_empty_paste_noop 0 0 "" "287\n203" ⟨none⟩ (Or.inl rfl)⟩

/-- C7 counterexample: with an empty working record set (obtained here
by processing whitespace-only pastes, which succeeds with zero
records), the Generate Luxury Report click produces no document but
also surfaces no message at all, contradicting the claimed
user-visible no-data condition. -/
theorem C7_no_data_counterexample :
    processCalculate 5 4 "\n" " \n" ⟨none⟩ = (⟨some []⟩, some (UiMessage.calculated 0)) ∧
    generateReport "ABSOLUTE BLACK" "EXP/2026/001" ⟨some []⟩ = (none, none) := by
  constructor
  · decide
  · decide

/-- C7 amended: whenever the current record count is zero, report
generation does not proceed and no document is produced, but the
handler is silent: no user-visible message of any kind is emitted. -/
theorem C7_no_data_amended (m i : String) (st : AppState)
    (h : (displaySection st).2.slabCount = 0) :
    generateReport m i st = (none, none) := by
  unfold generateReport
  rw [if_neg]
  simp [h]

/-- C7 witness: generation on the fresh empty session is a silent
no-op. -/
theorem C7_no_data_amended_witness :
    (displaySection ⟨none⟩).2.slabCount = 0 ∧
    generateReport "ABSOLUTE BLACK" "EXP/2026/001" ⟨none⟩ = (none, none) :=
  ⟨rfl, C7_no_data_amended "ABSOLUTE BLACK" "EXP/2026/001" ⟨none⟩ rfl⟩

/-- C9 counterexample: the download file name does not involve the
invoice number: two different invoice numbers yield the identical
name, which is built from the material name alone. -/
theorem C9_filename_counterexample :
    downloadFileName "ABSOLUTE BLACK" "EXP/2026/001"
      = downloadFileName "ABSOLUTE BLACK" "EXP/2026/002" ∧
    ("EXP/2026/001" : String) ≠ "EXP/2026/002" ∧
    downloadFileName "ABSOLUTE BLACK" "EXP/2026/001" = "Report_ABSOLUTE BLACK.pdf" := by
  refine ⟨rfl, ?_, rfl⟩
  decide

/-- C9 amended: every document the generate handler produces is named
`Report_<material>.pdf`, from the material name only; the invoice
number plays no part. -/
theorem C9_filename_amended (m i : String) (st : AppState) (doc : Document)
    (h : (generateReport m i st).1 = some doc) :
    doc.fileName = "Report_" ++ m ++ ".pdf" := by
  unfold generateReport at h
  by_cases hc : 0 < (displaySection st).2.slabCount
  · rw [if_pos hc] at h
    simp only [Option.some.injEq] at h
    rw [← h]
    rfl
  · rw [if_neg hc] at h
    exact absurd h (by simp)

/-- C9 witness: a one-record session produces a document named from
the material alone. -/
theorem C9_filename_amended_witness :
    (generateReport "M" "INV-77" ⟨some [mkSlabRecord 0 0 0 1 1]⟩).1
      = some { body := [["1", "RG-1", "1", "1", "0.000", "1", "1", "0.000"],
                        ["", "TOTAL", "", "", "0.000", "", "", "0.000"]],
               fileName := "Report_M.pdf" } ∧
    Document.fileName { body := [["1", "RG-1", "1", "1", "0.000", "1", "1", "0.000"],
                                 ["", "TOTAL", "", "", "0.000", "", "", "0.000"]],
                        fileName := "Report_M.pdf" } = "Report_" ++ "M" ++ ".pdf" :=
  ⟨by decide,
   C9_filename_amended "M" "INV-77" ⟨some [mkSlabRecord 0 0 0 1 1]⟩ _ (by decide)⟩

/-- C6 counterexample: with a non-numeric line in the length paste and
unequal line counts (1 length against 2 heights), the handler reports
the numeric-format error, not the count-mismatch error: the float
conversion at app.py line 79 runs before the count comparison at line
82. The working set is still left unchanged. -/
theorem C6_mismatch_counterexample :
    (trimmedLines "x").length = 1 ∧ (trimmedLines "1\n2").length = 2 ∧
    processCalculate 0 0 "x" "1\n2" ⟨none⟩ = (⟨none⟩, some UiMessage.numericFormatError) := by
  refine ⟨by decide, by decide, by decide⟩

/-- C6 amended: when both pastes are non-empty, every non-blank line
of both parses as a number, and the trimmed line counts differ, the
handler reports the count-mismatch error with the two counts and
leaves the working set unchanged (no truncation: no records are built
at all); when some line is non-numeric the numeric-format error is
reported instead, again leaving the working set unchanged. -/
theorem C6_mismatch_amended (dl dh : ℚ) (raw_L raw_H : String) (st : AppState)
    (hL : raw_L ≠ "") (hH : raw_H ≠ "")
    (L H : List ℚ) (hpL : parseLines raw_L = some L) (hpH : parseLines raw_H = some H)
    (hne : (trimmedLines raw_L).length ≠ (trimmedLines raw_H).length) :
    processCalculate dl dh raw_L raw_H st
      = (st, some (UiMessage.mismatchError L.length H.length)) ∧
    L.length = (trimmedLines raw_L).length ∧
    H.length = (trimmedLines raw_H).length := by
  have hLlen : L.length = (trimmedLines raw_L).length := parseAll_length _ _ hpL
  have hHlen : H.length = (trimmedLines raw_H).length := parseAll_length _ _ hpH
  have hne' : L.length ≠ H.length := by
    rw [hLlen, hHlen]; exact hne
  refine ⟨?_, hLlen, hHlen⟩
  unfold processCalculate
  rw [if_neg (by simp [hL, hH])]
  simp only [hpL, hpH]
  rw [if_pos hne']

/-- C6 witness: two lengths against one height, all numeric, produce
the mismatch error with counts 2 and 1 and leave the state unchanged. -/
theorem C6_mismatch_amended_witness :
    (("1\n2" : String) ≠ "") ∧ (("3" : String) ≠ "") ∧
    parseLines "1\n2" = some [1, 2] ∧ parseLines "3" = some [3] ∧
    (trimmedLines "1\n2").length ≠ (trimmedLines "3").length ∧
    (processCalculate 0 0 "1\n2" "3" ⟨none⟩
       = (⟨none⟩, some (UiMessage.mismatchError ([(1 : ℚ), 2]).length ([(3 : ℚ)]).length)) ∧
     ([(1 : ℚ), 2]).length = (trimmedLines "1\n2").length ∧
     ([(3 : ℚ)]).length = (trimmedLines "3").length) :=
  ⟨by decide, by decide, by decide, by decide, by decide,
   C6_mismatch_amended 0 0 "1\n2" "3" ⟨none⟩ (by decide) (by decide)
     [1, 2] [3] (by decide) (by decide) (by decide)⟩

/-- C2 counterexample: on the allowance string `-5 x 4` without swap
the code assigns the FIRST extracted number to the length deduction
(`deduct_h, deduct_l = parse_allowance(...)` at app.py line 63), so
lengthDeduction is 5 and heightDeduction is 4, not 4 and 5 as the
claim states; consequently record 1 of the example nets 275 by 176
with net area 4.840, not 276 by 175 with 4.830. -/
theorem C2_example_counterexample :
    (appDeductions "-5 x 4" false).lengthDeduction = 5 ∧
    (appDeductions "-5 x 4" false).heightDeduction = 4 ∧
    ¬((appDeductions "-5 x 4" false).lengthDeduction = 4 ∧
      (appDeductions "-5 x 4" false).heightDeduction = 5) ∧
    (processCalculate ((appDeductions "-5 x 4" false).lengthDeduction : ℚ)
        ((appDeductions "-5 x 4" false).heightDeduction : ℚ)
        "280\n290" "180\n190" ⟨none⟩).1.smart_data
      ≠ some [mkSlabRecord 4 5 0 280 180, mkSlabRecord 4 5 1 290 190] := by
  refine ⟨by decide, by decide, by decide, by decide⟩

/-- C2 amended: for gross lengths 280 and 290, gross heights 180 and
190, allowance `-5 x 4`, swap false, the pipeline yields
lengthDeduction 5 and heightDeduction 4; record 1 nets 275 by 176 with
gross area 5.040 and net area 4.840, record 2 nets 285 by 186 with
gross area 5.510 and net area 5.301; totals are count 2, gross area
10.550 and net area 10.141. -/
theorem C2_example_amended :
    processCalculate ((appDeductions "-5 x 4" false).lengthDeduction : ℚ)
        ((appDeductions "-5 x 4" false).heightDeduction : ℚ)
        "280\n290" "180\n190" ⟨none⟩
      = (⟨some [{ id := "RG-1", grossLength := 280, grossHeight := 180,
                  netLength := 275, netHeight := 176,
                  grossArea := 5040/1000, netArea := 4840/1000 },
                { id := "RG-2", grossLength := 290, grossHeight := 190,
                  netLength := 285, netHeight := 186,
                  grossArea := 5510/1000, netArea := 5301/1000 }]⟩,
         some (UiMessage.calculated 2)) ∧
    (displaySection (processCalculate 5 4 "280\n290" "180\n190" ⟨none⟩).1).2
      = { slabCount := 2, totalGrossArea := 10550/1000, totalNetArea := 10141/1000 } := by
  refine ⟨by decide, by decide⟩

/-- C3 counterexample: pasting the single gross length 0 against the
gross height 5 builds a record whose gross dimensions multiply to
zero, and that record is rendered as a data row of the table and
counted in the totals: nothing filters non-positive rows. -/
theorem C3_zero_row_counterexample :
    (processCalculate 0 0 "0" "5" ⟨none⟩).1.smart_data
      = some [mkSlabRecord 0 0 0 0 5] ∧
    (mkSlabRecord 0 0 0 0 5).grossLength * (mkSlabRecord 0 0 0 0 5).grossHeight = 0 ∧
    generateReport "M" "X" (processCalculate 0 0 "0" "5" ⟨none⟩).1
      = (some { body := [["1", "RG-1", "0", "5", "0.000", "0", "5", "0.000"],
                         ["", "TOTAL", "", "", "0.000", "", "", "0.000"]],
                fileName := "Report_M.pdf" },
         some (UiMessage.generated 1)) := by
  refine ⟨by decide, by decide, by decide⟩

/-- C3 amended: there is no positivity filter anywhere: every record
of the working set, including records whose gross dimensions multiply
to zero, is rendered as a data row (in order) and counted and summed
in the totals. -/
theorem C3_no_filter_amended (m inv : String) (recs : List SlabRecord)
    (h : recs ≠ []) :
    (generateReport m inv ⟨some recs⟩).1
      = some { body := dataRowsFrom 0 recs
                 ++ [totalRow (computeTotals recs).totalGrossArea
                       (computeTotals recs).totalNetArea]
               fileName := downloadFileName m inv } ∧
    (dataRowsFrom 0 recs).length = recs.length ∧
    (computeTotals recs).slabCount = recs.length ∧
    (computeTotals recs).totalGrossArea = (recs.map SlabRecord.grossArea).sum := by
  have hpos : 0 < (displaySection ⟨some recs⟩).2.slabCount := by
    simpa [displaySection, computeTotals] using List.length_pos.mpr h
  refine ⟨?_, dataRowsFrom_length recs 0, rfl, rfl⟩
  unfold generateReport
  rw [if_pos hpos]
  rfl

/-- C3 witness: a working set holding exactly one zero-dimension
record is rendered in full. -/
theorem C3_no_filter_amended_witness :
    ([mkSlabRecord 0 0 0 0 5] ≠ ([] : List SlabRecord)) ∧
    ((generateReport "M" "X" ⟨some [mkSlabRecord 0 0 0 0 5]⟩).1
       = some { body := dataRowsFrom 0 [mkSlabRecord 0 0 0 0 5]
                  ++ [totalRow (computeTotals [mkSlabRecord 0 0 0 0 5]).totalGrossArea
                        (computeTotals [mkSlabRecord 0 0 0 0 5]).totalNetArea]
                fileName := downloadFileName "M" "X" } ∧
     (dataRowsFrom 0 [mkSlabRecord 0 0 0 0 5]).length = [mkSlabRecord 0 0 0 0 5].length ∧
     (computeTotals [mkSlabRecord 0 0 0 0 5]).slabCount = [mkSlabRecord 0 0 0 0 5].length ∧
     (computeTotals [mkSlabRecord 0 0 0 0 5]).totalGrossArea
       = ([mkSlabRecord 0 0 0 0 5].map SlabRecord.grossArea).sum) :=
  ⟨by decide, C3_no_filter_amended "M" "X" [mkSlabRecord 0 0 0 0 5] (by decide)⟩

/-- Gross areas of the built records, row by row. -/
theorem buildRecordsFrom_map_grossArea (dl dh : ℚ) :
    ∀ (k : Nat) (ls hs : List ℚ),
      ((buildRecordsFrom dl dh k ls hs).map SlabRecord.grossArea)
        = (ls.zip hs).map (fun p => round3 (p.1 * p.2 / 10000)) := by
  intro k ls
  induction ls generalizing k with
  | nil => intro hs; rfl
  | cons gl ls ih =>
    intro hs
    cases hs with
    | nil => rfl
    | cons gh hs => simp [buildRecordsFrom, mkSlabRecord, ih]

/-- Net areas of the built records, row by row. -/
theorem buildRecordsFrom_map_netArea (dl dh : ℚ) :
    ∀ (k : Nat) (ls hs : List ℚ),
      ((buildRecordsFrom dl dh k ls hs).map SlabRecord.netArea)
        = (ls.zip hs).map (fun p => round3 ((p.1 - dl) * (p.2 - dh) / 10000)) := by
  intro k ls
  induction ls generalizing k with
  | nil => intro hs; rfl
  | cons gl ls ih =>
    intro hs
    cases hs with
    | nil => rfl
    | cons gh hs => simp [buildRecordsFrom, mkSlabRecord, ih]

/-- Every built record is some `mkSlabRecord`. -/
theorem mem_buildRecordsFrom (dl dh : ℚ) :
    ∀ (k : Nat) (ls hs : List ℚ) (r : SlabRecord),
      r ∈ buildRecordsFrom dl dh k ls hs →
      ∃ i gl gh, r = mkSlabRecord dl dh i gl gh := by
  intro k ls
  induction ls generalizing k with
  | nil => intro hs r hr; simp [buildRecordsFrom] at hr
  | cons gl ls ih =>
    intro hs r hr
    cases hs with
    | nil => simp [buildRecordsFrom] at hr
    | cons gh hs =>
      simp only [buildRecordsFrom, List.mem_cons] at hr
      rcases hr with h | h
      · exact ⟨k, gl, gh, h⟩
      · exact ih (k + 1) hs r h

/-- C4: the report totals are the count together with the plain
(floating-point, here rational) sums of the already-rounded per-slab
areas, so the printed totals equal the sums of the printed per-row
areas; and this sum-of-rounded is NOT a round-of-sum: on some input
the two disagree, witnessed inside the proof by two 1-by-3 slabs. -/
theorem C4_totals_sum_of_rounded (dl dh : ℚ) (ls hs : List ℚ) :
    (computeTotals (buildRecords dl dh ls hs)).slabCount
      = (buildRecords dl dh ls hs).length ∧
    (computeTotals (buildRecords dl dh ls hs)).totalGrossArea
      = ((ls.zip hs).map (fun p => round3 (p.1 * p.2 / 10000))).sum ∧
    (computeTotals (buildRecords dl dh ls hs)).totalNetArea
      = ((ls.zip hs).map (fun p => round3 ((p.1 - dl) * (p.2 - dh) / 10000))).sum ∧
    ¬ ∀ ls' hs' : List ℚ,
        (computeTotals (buildRecords 0 0 ls' hs')).totalGrossArea
          = round3 (((ls'.zip hs').map (fun p => p.1 * p.2 / 10000)).sum) := by
  refine ⟨rfl, ?_, ?_, ?_⟩
  · simp [computeTotals, buildRecords, buildRecordsFrom_map_grossArea]
  · simp [computeTotals, buildRecords, buildRecordsFrom_map_netArea]
  · intro hcontra
    exact absurd (hcontra [1, 1] [3, 3]) (by decide)

/-- C5: every built slab record has net dimensions equal to the gross
dimensions minus the deductions (unclamped, so they may be negative),
areas equal to `round3` of the dimension product over 10000, and both
areas are integer multiples of 1/1000 (exactly three decimal
places). -/
theorem C5_record_areas (dl dh : ℚ) (ls hs : List ℚ) (r : SlabRecord)
    (h : r ∈ buildRecords dl dh ls hs) :
    r.netLength = r.grossLength - dl ∧
    r.netHeight = r.grossHeight - dh ∧
    r.grossArea = round3 (r.grossLength * r.grossHeight / 10000) ∧
    r.netArea = round3 (r.netLength * r.netHeight / 10000) ∧
    (∃ z : ℤ, r.grossArea = (z : ℚ) / 1000) ∧
    (∃ z : ℤ, r.netArea = (z : ℚ) / 1000) := by
  obtain ⟨i, gl, gh, rfl⟩ := mem_buildRecordsFrom dl dh 0 ls hs r h
  exact ⟨rfl, rfl, rfl, rfl,
    ⟨roundHalfEven (gl * gh / 10000 * 1000), rfl⟩,
    ⟨roundHalfEven ((gl - dl) * (gh - dh) / 10000 * 1000), rfl⟩⟩

/-- C5 witness: the single record built from gross 280 by 180 under
deductions 5 and 4 satisfies all the per-record area properties. -/
theorem C5_record_areas_witness :
    (mkSlabRecord 5 4 0 280 180 ∈ buildRecords 5 4 [280] [180]) ∧
    ((mkSlabRecord 5 4 0 280 180).netLength
       = (mkSlabRecord 5 4 0 280 180).grossLength - 5 ∧
     (mkSlabRecord 5 4 0 280 180).netHeight
       = (mkSlabRecord 5 4 0 280 180).grossHeight - 4 ∧
     (mkSlabRecord 5 4 0 280 180).grossArea
       = round3 ((mkSlabRecord 5 4 0 280 180).grossLength
           * (mkSlabRecord 5 4 0 280 180).grossHeight / 10000) ∧
     (mkSlabRecord 5 4 0 280 180).netArea
       = round3 ((mkSlabRecord 5 4 0 280 180).netLength
           * (mkSlabRecord 5 4 0 280 180).netHeight / 10000) ∧
     (∃ z : ℤ, (mkSlabRecord 5 4 0 280 180).grossArea = (z : ℚ) / 1000) ∧
     (∃ z : ℤ, (mkSlabRecord 5 4 0 280 180).netArea = (z : ℚ) / 1000)) :=
  ⟨by decide, C5_record_areas 5 4 [280] [180] (mkSlabRecord 5 4 0 280 180) (by decide)⟩

/-- C8: the table body below the headers has exactly one data row per
record, in order, plus exactly one totals row at the end; the totals
row carries the literal label TOTAL in the slab-id column (position
1), the total gross area in the gross-area column (position 4), the
total net area in the net-area column (position 7), and blanks in
every other cell. -/
theorem C8_table_structure (recs : List SlabRecord) (tg tn : ℚ) :
    (tableRows recs tg tn).length = recs.length + 1 ∧
    (∀ j : Fin recs.length,
      (tableRows recs tg tn).get? j = some (dataRow j (recs.get j))) ∧
    (tableRows recs tg tn).get? recs.length = some (totalRow tg tn) ∧
    totalRow tg tn = ["", "TOTAL", "", "", fmt3 tg, "", "", fmt3 tn] := by
  refine ⟨?_, ?_, ?_, rfl⟩
  · simp [tableRows, dataRowsFrom_length]
  · intro j
    have hlt : (j : Nat) < (dataRowsFrom 0 recs).length := by
      rw [dataRowsFrom_length]
      exact j.isLt
    rw [tableRows, List.get?_append hlt, dataRowsFrom_get? recs 0 j j.isLt]
    simp
  · rw [tableRows, List.get?_append_right (by simp [dataRowsFrom_length])]
    simp [dataRowsFrom_length]

end Proofs

end Measurement
